import Mathlib

/-!
Verification of the savana sensor-ingestion pipeline.

Shallow embedding of:
- `scripts/fetch-sensor-data.sh` (single-node) and its multi-node variant:
  `fetch_api_data`, `parse_sensor_data`, `update_supabase`, `process_node`, `main`;
- `src/components/custom/sensor-chart.tsx`: `storeSensorData`,
  `fetchHistoricalData`, `fetchNodeData`, `toggleNode`, and the moisture
  sentinel filter in `renderMultiNodeChart`;
- `supabase/migrations`: table `sensor_data` with primary key `(id_node, waktu)`.

Numeric sensor values are embedded as `Option ℚ` (`none` is the upstream JSON
null / missing-field marker, which `jq -r` collapses to the string "null";
the stored SQL NULL is likewise `none`).  Timestamps are the upstream strings,
compared lexicographically on character codes the way the TEXT column
`waktu` is compared by the database.
-/

/-- Optional measurement channels of the upstream payload `data.data_node`
(`temp`, `rh`, `press`, `mous`, `rain`); `none` models a missing field or an
explicit JSON null. -/
structure DataNode where
  temp : Option ℚ
  rh : Option ℚ
  press : Option ℚ
  mous : Option ℚ
  rain : Option ℚ
deriving DecidableEq

/-- The `data` object of the upstream API response: `id_node`, `waktu`
(each possibly missing/null) and the measurement block. -/
structure UpstreamData where
  id_node : Option String
  waktu : Option String
  data_node : DataNode
deriving DecidableEq

/-- One row of the `sensor_data` table, as built by `parse_sensor_data`
(shell) / `storeSensorData` (tsx): required key columns plus five nullable
measurement columns. -/
structure SensorRow where
  id_node : String
  waktu : String
  temperature : Option ℚ
  humidity : Option ℚ
  pressure : Option ℚ
  moisture : Option ℚ
  rain : Option ℚ
deriving DecidableEq

/-- An HTTP response body as seen by the fetcher: either not parseable as
JSON, or parsed with an optional top-level `status` string (`none` when the
`status` field is missing or null, which makes `jq -e ".status"` fail) and a
`data` payload. -/
inductive Body where
  | malformed : Body
  | parsed : Option String → UpstreamData → Body
deriving DecidableEq

/-- The distinct outcomes reported by `fetch_api_data`, one per logging
branch of the shell function: curl transport failure, non-200 HTTP code,
failed `jq -e ".status"` check ("Invalid JSON response"), a present `status`
different from "Ok", and success carrying the payload. -/
inductive FetchOutcome where
  | networkError : FetchOutcome
  | httpError : Nat → FetchOutcome
  | invalidBody : FetchOutcome
  | badStatus : String → FetchOutcome
  | success : UpstreamData → FetchOutcome
deriving DecidableEq

/-- Embedding of `fetch_api_data` from `scripts/fetch-sensor-data.sh`
(lines 40-83): fail on transport error, then on HTTP code ≠ 200, then on a
failing `jq -e ".status"` probe (body malformed, or `status` missing/null),
then on `status` ≠ "Ok"; otherwise return the body. -/
def fetch_api_data (transportOk : Bool) (httpCode : Nat) (body : Body) :
    FetchOutcome :=
  if transportOk = false then FetchOutcome.networkError
  else if httpCode ≠ 200 then FetchOutcome.httpError httpCode
  else
    match body with
    | Body.malformed => FetchOutcome.invalidBody
    | Body.parsed none _ => FetchOutcome.invalidBody
    | Body.parsed (some s) d =>
        if s ≠ "Ok" then FetchOutcome.badStatus s
        else FetchOutcome.success d

/-- Embedding of `parse_sensor_data` from `scripts/fetch-sensor-data.sh`
(lines 86-116): reject the payload when `id_node` or `waktu` is the jq null
marker, otherwise emit the row with every optional channel copied through
verbatim (null marker becomes SQL null, any other value is kept unchanged). -/
def parse_sensor_data (d : UpstreamData) : Option SensorRow :=
  match d.id_node, d.waktu with
  | some n, some w =>
      some { id_node := n, waktu := w,
             temperature := d.data_node.temp,
             humidity := d.data_node.rh,
             pressure := d.data_node.press,
             moisture := d.data_node.mous,
             rain := d.data_node.rain }
  | _, _ => none

/-- The invalid-reading sentinel observed in the moisture channel,
the literal `-99` of `renderMultiNodeChart` in `sensor-chart.tsx`. -/
def moistureSentinel : ℚ := -99

/-- Embedding of the moisture display filter of `renderMultiNodeChart`
(`sensor-chart.tsx` lines 330-336): a stored value equal to the sentinel is
replaced by null ("no data") before charting; all other values pass through. -/
def moistureSentinelFilter (v : Option ℚ) : Option ℚ :=
  if v = some moistureSentinel then none else v

/-- Rows collide exactly when they agree on the natural key
`(id_node, waktu)`, the primary key of `sensor_data`. -/
def sameKey (a b : SensorRow) : Bool :=
  a.id_node == b.id_node && a.waktu == b.waktu

/-- Modelled from the spec: the merge-on-conflict upsert executed by the
external database, which is requested but not implemented in this repository
(`storeSensorData` passes `onConflict: "id_node,waktu"` and `update_supabase`
sends `Prefer: resolution=merge-duplicates`; the table declares
`PRIMARY KEY (id_node, waktu)`).  Insert the row, or replace in place every
row sharing its natural key. -/
def upsert (store : List SensorRow) (r : SensorRow) : List SensorRow :=
  if store.any (fun q => sameKey q r) then
    store.map (fun q => if sameKey q r then r else q)
  else
    store ++ [r]

/-- Modelled from the spec: "a subsequent read by the same natural key
returns this Reading's field values" — look a row up by its primary key. -/
def readKey (store : List SensorRow) (n w : String) : Option SensorRow :=
  store.find? (fun q => q.id_node == n && q.waktu == w)

/-- Lexicographic comparison of character-code sequences: the order the
database applies to the TEXT column `waktu` for `ORDER BY` and `gte`. -/
def chronoLe : List Char → List Char → Bool
  | [], _ => true
  | _ :: _, [] => false
  | c :: cs, d :: ds =>
      if c.toNat < d.toNat then true
      else if d.toNat < c.toNat then false
      else chronoLe cs ds

/-- Timestamp-string comparison used by the query model. -/
def waktuLe (a b : String) : Bool := chronoLe a.data b.data

/-- Row filter of the historical query in `fetchHistoricalData`
(`sensor-chart.tsx` lines 96-125): `.in("id_node", enabledNodeIds)` plus the
optional `.gte("waktu", filterDate)`; no `gte` filter is added for the
"semua" (all data) range. -/
def rowMatches (ids : List String) (bound : Option String) (r : SensorRow) :
    Bool :=
  ids.contains r.id_node &&
    match bound with
    | none => true
    | some b => waktuLe b r.waktu

/-- Chronological order on rows, the `order("waktu", ascending: true)`
directive of `fetchHistoricalData`. -/
def byWaktu (a b : SensorRow) : Prop := waktuLe a.waktu b.waktu = true

instance : DecidableRel byWaktu :=
  fun a b => inferInstanceAs (Decidable (waktuLe a.waktu b.waktu = true))

/-- Modelled from the spec: execution of the read query built by
`fetchHistoricalData` — performed by the external database — returning the
stored rows that pass the node-set and lower-bound filters, ordered by
ascending `waktu`. -/
def fetchQuery (store : List SensorRow) (ids : List String)
    (bound : Option String) : List SensorRow :=
  List.insertionSort byWaktu (store.filter (rowMatches ids bound))

/-- Identifiers of the enabled nodes, as computed at the top of
`fetchHistoricalData` (`sensor-chart.tsx` lines 80-82). -/
def enabledIds (nodes : List (String × Bool)) : List String :=
  (nodes.filter (fun p => p.2)).map (fun p => p.1)

/-- Embedding of `fetchHistoricalData` (`sensor-chart.tsx` lines 77-127):
with no enabled node it returns the empty dataset without querying
(lines 84-94); otherwise it runs the filtered, ordered query. -/
def fetchHistoricalData (store : List SensorRow)
    (nodes : List (String × Bool)) (bound : Option String) :
    List SensorRow :=
  let ids := enabledIds nodes
  if ids.isEmpty then [] else fetchQuery store ids bound

/-- Per-node pipeline input: transport success flag and HTTP code of the
upstream fetch, the response body, and whether the store accepts the write
(the latter modelled from the spec: the write acknowledgement comes from the
external database, `update_supabase` lines 119-151 only checks its HTTP
code). -/
structure NodeInput where
  transportOk : Bool
  httpCode : Nat
  body : Body
  writeOk : Bool
deriving DecidableEq

/-- Embedding of `process_node` from the multi-node fetch script
(lines 158-186): fetch, then parse, then write; any stage failure aborts the
node's cycle leaving the store untouched and reports failure. -/
def process_node (store : List SensorRow) (i : NodeInput) :
    List SensorRow × Bool :=
  match fetch_api_data i.transportOk i.httpCode i.body with
  | FetchOutcome.success d =>
      match parse_sensor_data d with
      | some row =>
          if i.writeOk then (upsert store row, true) else (store, false)
      | none => (store, false)
  | _ => (store, false)

/-- The row a node's input would persist, `none` when any stage of that
node's pipeline fails; it depends only on the node's own input. -/
def nodeOutcome (i : NodeInput) : Option SensorRow :=
  match fetch_api_data i.transportOk i.httpCode i.body with
  | FetchOutcome.success d =>
      match parse_sensor_data d with
      | some row => if i.writeOk then some row else none
      | none => none
  | _ => none

/-- One iteration of the `main` loop of the multi-node fetch script
(lines 199-207): process the node against the current store and increment
`success_count` when the node's pipeline succeeds. -/
def cycleStep (acc : List SensorRow × Nat) (i : NodeInput) :
    List SensorRow × Nat :=
  let pr := process_node acc.1 i
  (pr.1, if pr.2 then acc.2 + 1 else acc.2)

/-- Embedding of the `main` loop of the multi-node fetch script
(lines 188-219): process every node in turn, counting successes; the result
carries the final store, `success_count`, and `total_nodes`. -/
def main_cycle (store : List SensorRow) (inputs : List NodeInput) :
    List SensorRow × Nat × Nat :=
  let res := inputs.foldl cycleStep (store, 0)
  (res.1, res.2, inputs.length)

/-- Number of enabled nodes in the UI toggle state. -/
def countEnabled (nodes : List (String × Bool)) : Nat :=
  (nodes.filter (fun p => p.2)).length

/-- JavaScript property access `prev[nodeId]` on the toggle state object. -/
def lookupNode (id : String) : List (String × Bool) → Option Bool
  | [] => none
  | p :: ps => if p.1 = id then some p.2 else lookupNode id ps

/-- Embedding of `toggleNode` (`sensor-chart.tsx` lines 302-327): turning
off the sole enabled node instead turns every other node on; otherwise the
flag of the named node is flipped (set when absent, as JS assignment adds
the key). -/
def toggleNode (nodes : List (String × Bool)) (id : String) :
    List (String × Bool) :=
  match lookupNode id nodes with
  | some true =>
      if countEnabled nodes = 1 then
        nodes.map (fun p => (p.1, decide (p.1 ≠ id)))
      else
        nodes.map (fun p => if p.1 = id then (p.1, false) else p)
  | some false => nodes.map (fun p => if p.1 = id then (p.1, true) else p)
  | none => nodes ++ [(id, true)]

/-- A sequence of UI toggle clicks applied to a state. -/
def applyToggles (nodes : List (String × Bool)) (ids : List String) :
    List (String × Bool) :=
  ids.foldl toggleNode nodes

/-- The initial toggle state (`sensor-chart.tsx` lines 72-75): both
configured nodes enabled. -/
def initialNodes (n1 n2 : String) : List (String × Bool) :=
  [(n1, true), (n2, true)]

/-- Keys of the toggle state object. -/
def nodeKeys (nodes : List (String × Bool)) : List String :=
  nodes.map Prod.fst

/-- Invariant carried by every toggle state reachable from the two-node
initial state: distinct keys, at least two configured nodes, and at least
one of them enabled. -/
def GoodState (nodes : List (String × Bool)) : Prop :=
  (nodeKeys nodes).Nodup ∧ 2 ≤ nodes.length ∧ 1 ≤ countEnabled nodes

/-- The upstream payload of the success scenario in the specification:
node N1 at 2025-07-10T08:00:00 with temp 22.5, rh 80, press 1013.2,
mous -99, rain 0. -/
def scenarioData : UpstreamData :=
  { id_node := some "N1", waktu := some "2025-07-10T08:00:00",
    data_node :=
      { temp := some (45 / 2), rh := some 80, press := some (5066 / 5),
        mous := some (-99), rain := some 0 } }

/-- The success-scenario pipeline input: transport ok, HTTP 200, body with
status "Ok" and the scenario payload, write accepted. -/
def scenarioInput : NodeInput :=
  { transportOk := true, httpCode := 200,
    body := Body.parsed (some "Ok") scenarioData, writeOk := true }

/-- The row the pipeline stores for the success scenario. -/
def scenarioRow : SensorRow :=
  { id_node := "N1", waktu := "2025-07-10T08:00:00",
    temperature := some (45 / 2), humidity := some 80,
    pressure := some (5066 / 5), moisture := some (-99), rain := some 0 }

/-- The overwriting row of the upsert-overwrite scenario: same natural key
as `scenarioRow`, different measurement values. -/
def scenarioRowV2 : SensorRow :=
  { scenarioRow with temperature := some 30, moisture := some 40 }

/-!  Theorems. -/

/-- C1 counterexample: running the ingestion pipeline (fetch → normalize →
store write) on the success-scenario payload stores the moisture value `-99`
verbatim; the stored row's moisture field is NOT the explicit-absence marker
(SQL null, embedded as `none`), contrary to the claim. -/
theorem scenario_moisture_not_absent_cex :
    (process_node [] scenarioInput).1 = [scenarioRow] ∧
    scenarioRow.moisture = some moistureSentinel ∧
    scenarioRow.moisture ≠ none := by
  refine ⟨rfl, rfl, ?_⟩
  decide

/-- C1 (amended): for the success payload, the pipeline stores row
`N1 / 2025-07-10T08:00:00` with temperature, humidity, pressure and rain
equal to the upstream values and moisture equal to the sentinel `-99`
stored verbatim; the chart-layer sentinel filter then treats that stored
moisture as "no data" (null). -/
theorem scenario_success_pipeline :
    process_node [] scenarioInput = ([scenarioRow], true) ∧
    scenarioRow.id_node = "N1" ∧
    scenarioRow.waktu = "2025-07-10T08:00:00" ∧
    scenarioRow.temperature = some (45 / 2) ∧
    scenarioRow.humidity = some 80 ∧
    scenarioRow.pressure = some (5066 / 5) ∧
    scenarioRow.rain = some 0 ∧
    scenarioRow.moisture = some moistureSentinel ∧
    moistureSentinelFilter scenarioRow.moisture = none :=
  ⟨rfl, rfl, rfl, rfl, rfl, rfl, rfl, rfl, rfl⟩

/-- C2: whenever `id_node` and `waktu` are present and non-null, the
Normalizer emits exactly one canonical row whose key equals the upstream
values and whose five optional channels are copied through verbatim —
upstream value when present, the explicit-absence marker when the upstream
field is the null marker; no interpolation, clamping or conversion. -/
theorem normalizer_copies_fields (d : UpstreamData) (n w : String)
    (hn : d.id_node = some n) (hw : d.waktu = some w) :
    parse_sensor_data d =
      some { id_node := n, waktu := w,
             temperature := d.data_node.temp,
             humidity := d.data_node.rh,
             pressure := d.data_node.press,
             moisture := d.data_node.mous,
             rain := d.data_node.rain } := by
  simp [parse_sensor_data, hn, hw]

/-- Witness for C2 at a concrete payload with a mix of present and null
optional fields. -/
theorem normalizer_copies_fields_witness :
    parse_sensor_data
        { id_node := some "N2", waktu := some "2025-07-10T09:00:00",
          data_node := { temp := some 21, rh := none, press := some 1000,
                         mous := none, rain := some 0 } } =
      some { id_node := "N2", waktu := "2025-07-10T09:00:00",
             temperature := some 21, humidity := none,
             pressure := some 1000, moisture := none, rain := some 0 } :=
  normalizer_copies_fields _ "N2" "2025-07-10T09:00:00" rfl rfl

/-- C3: when `id_node` or `waktu` is missing or null, the Normalizer fails
and the node's poll cycle writes nothing: the store is left exactly as it
was, and the cycle reports failure. -/
theorem normalizer_requires_key_fields (d : UpstreamData)
    (store : List SensorRow) (wOk : Bool)
    (h : d.id_node = none ∨ d.waktu = none) :
    parse_sensor_data d = none ∧
    process_node store
        { transportOk := true, httpCode := 200,
          body := Body.parsed (some "Ok") d, writeOk := wOk } =
      (store, false) := by
  have hp : parse_sensor_data d = none := by
    rcases hn : d.id_node with _ | n <;> rcases hw : d.waktu with _ | w <;>
      simp [parse_sensor_data, hn, hw] <;>
      rcases h with h | h <;> simp_all
  refine ⟨hp, ?_⟩
  simp [process_node, fetch_api_data, hp]

/-- Witness for C3: payload with a null `id_node`. -/
theorem normalizer_requires_key_fields_witness :
    parse_sensor_data
        { id_node := none, waktu := some "2025-07-10T08:00:00",
          data_node := { temp := some 20, rh := none, press := none,
                         mous := none, rain := none } } = none ∧
    process_node []
        { transportOk := true, httpCode := 200,
          body := Body.parsed (some "Ok")
            { id_node := none, waktu := some "2025-07-10T08:00:00",
              data_node := { temp := some 20, rh := none, press := none,
                             mous := none, rain := none } },
          writeOk := true } =
      ([], false) :=
  normalizer_requires_key_fields _ [] true (Or.inl rfl)

/-- C8 counterexample: a parseable body whose `status` field is missing
(claim condition 4) is reported through the very same "Invalid JSON
response" branch as a malformed body (claim condition 3) — `jq -e ".status"`
fails for both — so the four failure conditions are not all reported
distinctly. -/
theorem fetch_missing_status_merged_cex :
    fetch_api_data true 200 (Body.parsed none scenarioData)
        = FetchOutcome.invalidBody ∧
    fetch_api_data true 200 Body.malformed = FetchOutcome.invalidBody :=
  ⟨rfl, rfl⟩

/-- C8 (amended): the Fetcher reports transport failure, non-200 HTTP
status, an invalid body, and a non-success status value through distinct
outcomes, and succeeds exactly when HTTP status is 200 and the parseable
body carries status "Ok"; however a parseable body with the status field
missing is reported through the invalid-body outcome (merged with the
malformed-body condition), not as a distinct status failure. -/
theorem fetch_failure_reporting (c : Nat) (s : String) (d : UpstreamData)
    (b : Body) (t2 : Bool) (c2 : Nat) (b2 : Body) (d2 : UpstreamData)
    (hc : c ≠ 200) (hs : s ≠ "Ok") :
    fetch_api_data false c b = FetchOutcome.networkError ∧
    fetch_api_data true c b = FetchOutcome.httpError c ∧
    fetch_api_data true 200 Body.malformed = FetchOutcome.invalidBody ∧
    fetch_api_data true 200 (Body.parsed none d) = FetchOutcome.invalidBody ∧
    fetch_api_data true 200 (Body.parsed (some s) d)
        = FetchOutcome.badStatus s ∧
    fetch_api_data true 200 (Body.parsed (some "Ok") d)
        = FetchOutcome.success d ∧
    (fetch_api_data t2 c2 b2 = FetchOutcome.success d2 ↔
      t2 = true ∧ c2 = 200 ∧ b2 = Body.parsed (some "Ok") d2) := by
  refine ⟨rfl, by simp [fetch_api_data, hc], rfl, rfl,
    by simp [fetch_api_data, hs], by simp [fetch_api_data], ?_⟩
  constructor
  · intro h
    cases t2 with
    | false => simp [fetch_api_data] at h
    | true =>
      by_cases h200 : c2 = 200
      · subst h200
        cases b2 with
        | malformed => simp [fetch_api_data] at h
        | parsed st dd =>
          cases st with
          | none => simp [fetch_api_data] at h
          | some sv =>
            by_cases hok : sv = "Ok"
            · subst hok
              simp only [fetch_api_data, if_neg, reduceIte] at h
              refine ⟨rfl, rfl, ?_⟩
              cases h
              rfl
            · simp [fetch_api_data, hok] at h
      · simp [fetch_api_data, h200] at h
  · rintro ⟨rfl, rfl, rfl⟩
    rfl

/-- Witness for the amended C8 at concrete inputs (HTTP 500, status
"Error", the scenario payload). -/
theorem fetch_failure_reporting_witness :
    fetch_api_data false 500 Body.malformed = FetchOutcome.networkError ∧
    fetch_api_data true 500 Body.malformed = FetchOutcome.httpError 500 ∧
    fetch_api_data true 200 Body.malformed = FetchOutcome.invalidBody ∧
    fetch_api_data true 200 (Body.parsed none scenarioData)
        = FetchOutcome.invalidBody ∧
    fetch_api_data true 200 (Body.parsed (some "Error") scenarioData)
        = FetchOutcome.badStatus "Error" ∧
    fetch_api_data true 200 (Body.parsed (some "Ok") scenarioData)
        = FetchOutcome.success scenarioData ∧
    (fetch_api_data true 200 (Body.parsed (some "Ok") scenarioData)
        = FetchOutcome.success scenarioData ↔
      true = true ∧ 200 = 200 ∧
        Body.parsed (some "Ok") scenarioData
          = Body.parsed (some "Ok") scenarioData) :=
  fetch_failure_reporting 500 "Error" scenarioData Body.malformed
    true 200 (Body.parsed (some "Ok") scenarioData) scenarioData
    (by decide) (by decide)

/-- Every row collides with itself on the natural key. -/
theorem sameKey_self (r : SensorRow) : sameKey r r = true := by
  simp [sameKey]

/-- Replacing key-colliding rows twice is the same as replacing them once. -/
theorem replace_key_idem (s : List SensorRow) (r : SensorRow) :
    (s.map (fun q => if sameKey q r then r else q)).map
        (fun q => if sameKey q r then r else q) =
      s.map (fun q => if sameKey q r then r else q) := by
  rw [List.map_map]
  refine List.map_congr_left ?_
  intro q _
  by_cases h : sameKey q r = true
  · simp [Function.comp, h, sameKey_self]
  · simp [Function.comp, h]

/-- C4: the store write is idempotent — upserting the same canonical row
twice leaves the store in exactly the state produced by upserting it once
(hence the same row count and the same field values at every key). -/
theorem store_write_idempotent (s : List SensorRow) (r : SensorRow) :
    upsert (upsert s r) r = upsert s r := by
  by_cases h : s.any (fun q => sameKey q r) = true
  · have hin : upsert s r = s.map (fun q => if sameKey q r then r else q) := by
      rw [upsert, if_pos h]
    rw [hin]
    have hmem : ((s.map (fun q => if sameKey q r then r else q)).any
        (fun q => sameKey q r)) = true := by
      rcases List.any_eq_true.mp h with ⟨q, hq, hqr⟩
      exact List.any_eq_true.mpr
        ⟨r, List.mem_map.mpr ⟨q, hq, by simp [hqr]⟩, sameKey_self r⟩
    rw [upsert, if_pos hmem]
    exact replace_key_idem s r
  · have hin : upsert s r = s ++ [r] := by
      rw [upsert, if_neg h]
    rw [hin]
    have hany : ((s ++ [r]).any (fun q => sameKey q r)) = true :=
      List.any_eq_true.mpr ⟨r, by simp, sameKey_self r⟩
    rw [upsert, if_pos hany, List.map_append]
    have hall : ∀ q ∈ s, (if sameKey q r then r else q) = q := by
      intro q hq
      have hne : ¬ sameKey q r = true :=
        fun hc => h (List.any_eq_true.mpr ⟨q, hq, hc⟩)
      simp [hne]
    rw [List.map_congr_left hall, List.map_id']
    simp [sameKey_self]

/-- In a store that contains a row colliding with `r`, the replacement map
yields `r` at the first colliding position. -/
theorem find_replaced (r : SensorRow) :
    ∀ s : List SensorRow, s.any (fun q => sameKey q r) = true →
      (s.map (fun q => if sameKey q r then r else q)).find?
          (fun q => sameKey q r) = some r := by
  intro s
  induction s with
  | nil => intro h; simp at h
  | cons q t ih =>
    intro h
    by_cases hq : sameKey q r = true
    · simp [List.find?, hq, sameKey_self]
    · have ht : t.any (fun p => sameKey p r) = true := by
        rcases List.any_eq_true.mp h with ⟨p, hp, hpr⟩
        rcases List.mem_cons.mp hp with rfl | hp
        · exact absurd hpr hq
        · exact List.any_eq_true.mpr ⟨p, hp, hpr⟩
      have hq' : sameKey q r = false := by
        cases hb : sameKey q r
        · rfl
        · exact absurd hb hq
      rw [List.map_cons, if_neg hq, List.find?_cons]
      simp only [hq']
      exact ih ht

/-- C5: upserting a row whose natural key already exists in the store
replaces the stored values in place — the row count is unchanged (no second
row is created) and a read by that key returns the new row, not the old. -/
theorem store_upsert_overwrites (s : List SensorRow) (r : SensorRow)
    (h : s.any (fun q => sameKey q r) = true) :
    (upsert s r).length = s.length ∧
    readKey (upsert s r) r.id_node r.waktu = some r := by
  constructor
  · rw [upsert, if_pos h]
    exact List.length_map s _
  · rw [upsert, if_pos h]
    show (s.map (fun q => if sameKey q r then r else q)).find?
        (fun q => sameKey q r) = some r
    exact find_replaced r s h

/-- Witness for C5: the scenario row is overwritten by a same-key row with
different measurement values. -/
theorem store_upsert_overwrites_witness :
    (upsert [scenarioRow] scenarioRowV2).length = [scenarioRow].length ∧
    readKey (upsert [scenarioRow] scenarioRowV2) scenarioRowV2.id_node
        scenarioRowV2.waktu = some scenarioRowV2 :=
  store_upsert_overwrites [scenarioRow] scenarioRowV2 rfl

/-- The timestamp order is total. -/
theorem chronoLe_total : ∀ a b : List Char,
    chronoLe a b = true ∨ chronoLe b a = true
  | [], _ => Or.inl rfl
  | _ :: _, [] => Or.inr rfl
  | c :: cs, d :: ds => by
    by_cases h1 : c.toNat < d.toNat
    · left
      simp [chronoLe, h1]
    · by_cases h2 : d.toNat < c.toNat
      · right
        simp [chronoLe, h2]
      · rcases chronoLe_total cs ds with h | h
        · left
          simp [chronoLe, h1, h2, h]
        · right
          simp [chronoLe, h1, h2, h]

/-- The timestamp order is transitive. -/
theorem chronoLe_trans : ∀ a b c : List Char, chronoLe a b = true →
    chronoLe b c = true → chronoLe a c = true
  | [], _, _, _, _ => rfl
  | _ :: _, [], _, h1, _ => by simp [chronoLe] at h1
  | _ :: _, _ :: _, [], _, h2 => by simp [chronoLe] at h2
  | a :: as, b :: bs, c :: cs, h1, h2 => by
    simp only [chronoLe] at h1 h2 ⊢
    split_ifs at h1 h2 ⊢ <;>
      first
        | rfl
        | exact Bool.noConfusion h1
        | exact Bool.noConfusion h2
        | exact chronoLe_trans as bs cs h1 h2
        | (exfalso; omega)

/-- C6: the executed historical query returns rows sorted by ascending
`waktu`; with a lower bound it returns exactly the stored rows of the
selected nodes whose `waktu` is at or after the bound (rows strictly before
the bound are excluded), and with no bound it returns exactly the stored
rows of the selected nodes. -/
theorem query_sorted_and_filtered (store : List SensorRow)
    (ids : List String) (bound : Option String) (b : String)
    (r : SensorRow) :
    List.Sorted byWaktu (fetchQuery store ids bound) ∧
    (r ∈ fetchQuery store ids (some b) ↔
      r ∈ store ∧ ids.contains r.id_node = true ∧
        waktuLe b r.waktu = true) ∧
    (r ∈ fetchQuery store ids none ↔
      r ∈ store ∧ ids.contains r.id_node = true) := by
  haveI : IsTotal SensorRow byWaktu :=
    ⟨fun x y => chronoLe_total x.waktu.data y.waktu.data⟩
  haveI : IsTrans SensorRow byWaktu :=
    ⟨fun x y z => chronoLe_trans x.waktu.data y.waktu.data z.waktu.data⟩
  refine ⟨List.sorted_insertionSort byWaktu _, ?_, ?_⟩
  · rw [fetchQuery,
      (List.perm_insertionSort byWaktu
        (store.filter (rowMatches ids (some b)))).mem_iff,
      List.mem_filter]
    simp [rowMatches, and_assoc]
  · rw [fetchQuery,
      (List.perm_insertionSort byWaktu
        (store.filter (rowMatches ids none))).mem_iff,
      List.mem_filter]
    simp [rowMatches]

/-- C7: with no enabled node the read path returns the empty dataset
without querying, and the underlying query itself also yields the empty
result for an empty node set — never "all nodes". -/
theorem empty_node_set_empty_result (store : List SensorRow)
    (bound : Option String) (nodes : List (String × Bool))
    (h : enabledIds nodes = []) :
    fetchHistoricalData store nodes bound = [] ∧
    fetchQuery store [] bound = [] := by
  constructor
  · rw [fetchHistoricalData]
    simp [h]
  · rw [fetchQuery]
    have : store.filter (rowMatches [] bound) = [] := by
      apply List.filter_eq_nil_iff.mpr
      intro r _
      simp [rowMatches]
    rw [this]
    rfl

/-- Witness for C7: both configured nodes disabled over a non-empty
store. -/
theorem empty_node_set_empty_result_witness :
    fetchHistoricalData [scenarioRow] [("N1", false), ("N2", false)] none
        = [] ∧
    fetchQuery [scenarioRow] [] none = [] :=
  empty_node_set_empty_result [scenarioRow] none
    [("N1", false), ("N2", false)] rfl

/-- A node's pipeline step is determined by that node's own outcome: a
successful node upserts its row and counts as a success, a failed node
leaves the store untouched. -/
theorem process_node_eq (store : List SensorRow) (i : NodeInput) :
    process_node store i =
      match nodeOutcome i with
      | some row => (upsert store row, true)
      | none => (store, false) := by
  cases hf : fetch_api_data i.transportOk i.httpCode i.body with
  | networkError => simp [process_node, nodeOutcome, hf]
  | httpError c => simp [process_node, nodeOutcome, hf]
  | invalidBody => simp [process_node, nodeOutcome, hf]
  | badStatus s => simp [process_node, nodeOutcome, hf]
  | success d =>
    cases hp : parse_sensor_data d with
    | none => simp [process_node, nodeOutcome, hf, hp]
    | some row =>
      cases hw : i.writeOk <;>
        simp [process_node, nodeOutcome, hf, hp, hw]

/-- One loop iteration in terms of the node's own outcome. -/
theorem cycleStep_eq (acc : List SensorRow × Nat) (i : NodeInput) :
    cycleStep acc i =
      match nodeOutcome i with
      | some row => (upsert acc.1 row, acc.2 + 1)
      | none => acc := by
  rw [cycleStep, process_node_eq]
  cases nodeOutcome i <;> simp

/-- Unrolled form of the multi-node main loop: the final store is the fold
of the successful rows only, and the success counter adds the number of
successful nodes. -/
theorem main_cycle_foldl (inputs : List NodeInput) :
    ∀ (store : List SensorRow) (k : Nat),
      inputs.foldl cycleStep (store, k) =
        ((inputs.filterMap nodeOutcome).foldl upsert store,
          k + (inputs.filterMap nodeOutcome).length) := by
  induction inputs with
  | nil =>
    intro store k
    simp
  | cons i t ih =>
    intro store k
    rw [List.foldl_cons, List.filterMap_cons, cycleStep_eq]
    cases ho : nodeOutcome i with
    | some row =>
      rw [ih]
      simp only [List.foldl_cons, List.length_cons, Prod.mk.injEq]
      exact ⟨trivial, by omega⟩
    | none =>
      exact ih store k

/-- C9: in a multi-node cycle, each node's contribution is a function of
that node's own input alone — every node whose fetch, parse and write
succeed has its row upserted regardless of the failures of other nodes —
and the cycle reports the count of succeeded nodes alongside the total node
count as its outcome. -/
theorem cycle_isolation_and_counts (store : List SensorRow)
    (inputs : List NodeInput) :
    main_cycle store inputs =
      ((inputs.filterMap nodeOutcome).foldl upsert store,
        (inputs.filterMap nodeOutcome).length,
        inputs.length) := by
  show ((inputs.foldl cycleStep (store, 0)).1,
      (inputs.foldl cycleStep (store, 0)).2, inputs.length) = _
  rw [main_cycle_foldl inputs store 0]
  simp

/-- A state with some enabled entry has a positive enabled count. -/
theorem countEnabled_pos (nodes : List (String × Bool)) (p : String × Bool)
    (hm : p ∈ nodes) (he : p.2 = true) : 1 ≤ countEnabled nodes := by
  rw [countEnabled]
  exact List.length_pos_of_mem (List.mem_filter.mpr ⟨hm, he⟩)

/-- A key that `lookupNode` misses is not among the state's keys. -/
theorem lookupNode_none_not_mem (id : String) :
    ∀ nodes : List (String × Bool), lookupNode id nodes = none →
      id ∉ nodeKeys nodes := by
  intro nodes
  induction nodes with
  | nil =>
    intro _ h
    simp [nodeKeys] at h
  | cons p ps ih =>
    intro h hmem
    rw [lookupNode] at h
    by_cases hp : p.1 = id
    · rw [if_pos hp] at h
      exact Option.noConfusion h
    · rw [if_neg hp] at h
      rw [nodeKeys, List.map_cons, List.mem_cons] at hmem
      rcases hmem with h1 | h1
      · exact hp h1.symm
      · exact ih h (by rwa [nodeKeys])

/-- A key that `lookupNode` finds belongs to an entry of the state. -/
theorem lookupNode_some_mem (id : String) (v : Bool) :
    ∀ nodes : List (String × Bool), lookupNode id nodes = some v →
      ∃ p ∈ nodes, p.1 = id ∧ p.2 = v := by
  intro nodes
  induction nodes with
  | nil =>
    intro h
    exact Option.noConfusion h
  | cons p ps ih =>
    intro h
    rw [lookupNode] at h
    by_cases hp : p.1 = id
    · rw [if_pos hp] at h
      exact ⟨p, List.mem_cons_self p ps, hp, Option.some.inj h⟩
    · rw [if_neg hp] at h
      obtain ⟨q, hq, hqs⟩ := ih h
      exact ⟨q, List.mem_cons_of_mem p hq, hqs⟩

/-- Mapping a key-preserving function over the state leaves its keys
unchanged. -/
theorem nodeKeys_map (nodes : List (String × Bool))
    (f : String × Bool → String × Bool) (hf : ∀ p, (f p).1 = p.1) :
    nodeKeys (nodes.map f) = nodeKeys nodes := by
  rw [nodeKeys, nodeKeys, List.map_map]
  exact List.map_congr_left (fun p _ => hf p)

/-- A state with at least two distinct keys has an entry whose key differs
from any given identifier. -/
theorem exists_other_key :
    ∀ (l : List (String × Bool)) (id : String), 2 ≤ l.length →
      (l.map Prod.fst).Nodup → ∃ q ∈ l, q.1 ≠ id
  | [], _, h, _ => by simp at h
  | [_], _, h, _ => by simp at h
  | p :: q :: t, id, _, hnd => by
    rw [List.map_cons, List.map_cons] at hnd
    have hnd' := List.nodup_cons.mp hnd
    have hpq : p.1 ≠ q.1 :=
      fun he => hnd'.1 (he ▸ List.mem_cons_self q.1 (t.map Prod.fst))
    by_cases hp : p.1 = id
    · refine ⟨q, List.mem_cons_of_mem _ (List.mem_cons_self _ _), ?_⟩
      rw [← hp]
      exact fun he => hpq he.symm
    · exact ⟨p, List.mem_cons_self _ _, hp⟩

/-- When at least two entries are enabled and keys are distinct, some
enabled entry has a key different from any given identifier. -/
theorem exists_other_enabled (l : List (String × Bool)) (id : String)
    (h2 : 2 ≤ countEnabled l) (hnd : (l.map Prod.fst).Nodup) :
    ∃ q ∈ l, q.2 = true ∧ q.1 ≠ id := by
  have hsub : ((l.filter (fun p => p.2)).map Prod.fst).Sublist
      (l.map Prod.fst) :=
    (List.filter_sublist l).map Prod.fst
  have hndf := hnd.sublist hsub
  obtain ⟨q, hq, hqid⟩ :=
    exists_other_key (l.filter (fun p => p.2)) id h2 hndf
  have hq' := List.mem_filter.mp hq
  exact ⟨q, hq'.1, hq'.2, hqid⟩

/-- Toggling any node preserves the invariant: distinct keys, at least two
configured nodes, at least one node enabled. -/
theorem toggle_good (nodes : List (String × Bool)) (id : String)
    (h : GoodState nodes) : GoodState (toggleNode nodes id) := by
  obtain ⟨hnd, hlen, hcnt⟩ := h
  cases hl : lookupNode id nodes with
  | none =>
    simp only [toggleNode, hl]
    refine ⟨?_, ?_, ?_⟩
    · rw [nodeKeys, List.map_append, List.nodup_append]
      refine ⟨hnd, by simp, ?_⟩
      intro a ha hb
      simp only [List.map_cons, List.map_nil, List.mem_singleton] at hb
      exact lookupNode_none_not_mem id nodes hl (hb ▸ ha)
    · rw [List.length_append]
      omega
    · exact countEnabled_pos _ (id, true)
        (List.mem_append_right _ (List.mem_cons_self _ _)) rfl
  | some v =>
    cases v with
    | false =>
      simp only [toggleNode, hl]
      obtain ⟨p, hp, hpid, hpv⟩ := lookupNode_some_mem id false nodes hl
      have hk : nodeKeys
          (nodes.map (fun p => if p.1 = id then (p.1, true) else p)) =
          nodeKeys nodes := by
        refine nodeKeys_map _ _ ?_
        intro q
        by_cases hq : q.1 = id <;> simp [hq]
      refine ⟨hk ▸ hnd, ?_, ?_⟩
      · rw [List.length_map]
        exact hlen
      · refine countEnabled_pos _ (p.1, true) ?_ rfl
        refine List.mem_map.mpr ⟨p, hp, ?_⟩
        rw [if_pos hpid]
    | true =>
      simp only [toggleNode, hl]
      by_cases hone : countEnabled nodes = 1
      · rw [if_pos hone]
        obtain ⟨q, hq, hqid⟩ :=
          exists_other_key nodes id hlen (by rwa [nodeKeys] at hnd)
        have hk : nodeKeys
            (nodes.map (fun p => (p.1, decide (p.1 ≠ id)))) =
            nodeKeys nodes :=
          nodeKeys_map _ _ (fun p => rfl)
        refine ⟨hk ▸ hnd, ?_, ?_⟩
        · rw [List.length_map]
          exact hlen
        · refine countEnabled_pos _ (q.1, true) ?_ rfl
          refine List.mem_map.mpr ⟨q, hq, ?_⟩
          simp [hqid]
      · rw [if_neg hone]
        have h2 : 2 ≤ countEnabled nodes := by omega
        obtain ⟨q, hq, hqt, hqid⟩ :=
          exists_other_enabled nodes id h2 (by rwa [nodeKeys] at hnd)
        have hk : nodeKeys
            (nodes.map (fun p => if p.1 = id then (p.1, false) else p)) =
            nodeKeys nodes := by
          refine nodeKeys_map _ _ ?_
          intro r
          by_cases hr : r.1 = id <;> simp [hr]
        refine ⟨hk ▸ hnd, ?_, ?_⟩
        · rw [List.length_map]
          exact hlen
        · refine countEnabled_pos _ q ?_ hqt
          refine List.mem_map.mpr ⟨q, hq, ?_⟩
          rw [if_neg hqid]

/-- The invariant survives any sequence of toggle clicks. -/
theorem good_applyToggles (ids : List String) :
    ∀ nodes : List (String × Bool), GoodState nodes →
      GoodState (applyToggles nodes ids) := by
  induction ids with
  | nil =>
    intro nodes h
    exact h
  | cons i t ih =>
    intro nodes h
    rw [applyToggles, List.foldl_cons]
    exact ih (toggleNode nodes i) (toggle_good nodes i h)

/-- C10: starting from the initial state with both configured nodes
enabled, any sequence of node toggles leaves at least one node enabled —
disabling the sole enabled node re-enables the others — so the enabled node
set handed to the read query by the toggle path is never empty. -/
theorem toggle_keeps_enabled_nonempty (n1 n2 : String) (ids : List String)
    (h : n1 ≠ n2) :
    1 ≤ countEnabled (applyToggles (initialNodes n1 n2) ids) ∧
    enabledIds (applyToggles (initialNodes n1 n2) ids) ≠ [] := by
  have hg : GoodState (initialNodes n1 n2) := by
    refine ⟨?_, ?_, ?_⟩
    · simp [nodeKeys, initialNodes, h]
    · simp [initialNodes]
    · simp [countEnabled, initialNodes]
  have hg' := good_applyToggles ids (initialNodes n1 n2) hg
  obtain ⟨-, -, hcnt⟩ := hg'
  refine ⟨hcnt, ?_⟩
  intro hne
  rw [enabledIds] at hne
  have hf := List.map_eq_nil_iff.mp hne
  rw [countEnabled, hf] at hcnt
  simp at hcnt

/-- Witness for C10: toggling node A off, then node B off, starting from
the two-node initial state. -/
theorem toggle_keeps_enabled_nonempty_witness :
    1 ≤ countEnabled (applyToggles (initialNodes "A" "B") ["A", "B"]) ∧
    enabledIds (applyToggles (initialNodes "A" "B") ["A", "B"]) ≠ [] :=
  toggle_keeps_enabled_nonempty "A" "B" ["A", "B"] (by decide)
